import Mathlib

/-!
Verification of the BenBot backend relay (`main.py`).

The service is a single FastAPI app with two endpoints: `GET /health` and
`POST /chat`.  The chat endpoint reads the `DEEPSEEK_API_KEY` environment
variable, extracts the latest user message, builds a fixed four-message
payload, posts it to the DeepSeek chat-completion API, and maps the
upstream response (or failure) into a `{"answer": ...}` reply.

The embedding below models the handler as a pure function of
- the configured API key (`Option String`, `none` when the variable is unset),
- the parsed request body (`ChatReq`),
- an upstream oracle `Payload → UpstreamResult` standing for the single
  `httpx` POST: it yields either a parsed status/JSON-body pair or a
  transport-level exception text (connection errors, timeouts, and
  `r.json()` parse failures all occur inside the handler's `try` block and
  are indistinguishable in it, so they share the `transportError` case).

Python data reached through `r.json()` is modelled by the `Json` inductive.
Dynamic operations (`dict.get`, `x or y`, `x[0]`, `str(x)`, truthiness)
are modelled with Python's semantics, including the exceptions that
`.get` on a non-dict or `[0]` on a non-sequence raise; a raised exception
that escapes the handler is the `ChatOutcome.crash` case (FastAPI turns it
into a plain HTTP 500).
-/

namespace BenBot

/-- Parsed JSON values, as produced by `r.json()`. -/
inductive Json where
  | null
  | bool (b : Bool)
  | num (n : Int)
  | str (s : String)
  | arr (elems : List Json)
  | obj (fields : List (String × Json))

/-- Python exceptions that the handler's own code can raise when the
upstream body has an unexpected shape. -/
inductive PyExn where
  | attributeError
  | keyError
  | typeError
  | indexError
  deriving DecidableEq, Repr

/-- Python truthiness of a JSON value (`bool(x)`). -/
def truthy : Json → Bool
  | .null => false
  | .bool b => b
  | .num n => n != 0
  | .str s => !s.isEmpty
  | .arr xs => !xs.isEmpty
  | .obj fs => !fs.isEmpty

/-- Python `a or b` on JSON values: `a` when truthy, else `b`. -/
def pyOr (a b : Json) : Json := if truthy a then a else b

/-- First binding of a key in an object's field list. -/
def lookupField : List (String × Json) → String → Option Json
  | [], _ => none
  | (k, v) :: rest, key => if k == key then some v else lookupField rest key

/-- Python `d.get(key)`: `None` when the key is missing, and an
`AttributeError` when the receiver is not a dict. -/
def dictGet : Json → String → Except PyExn Json
  | .obj fs, key => .ok ((lookupField fs key).getD .null)
  | _, _ => .error .attributeError

/-- Python `x[0]`: first element of a list, first character of a non-empty
string, `KeyError` on a dict (JSON object keys are strings, never the int
`0`), `TypeError` otherwise. -/
def pyIndex0 : Json → Except PyExn Json
  | .arr (x :: _) => .ok x
  | .arr [] => .error .indexError
  | .str s =>
    match s.toList with
    | c :: _ => .ok (.str (String.singleton c))
    | [] => .error .indexError
  | .obj _ => .error .keyError
  | _ => .error .typeError

mutual

/-- Python `repr` of a parsed-JSON value (what `str()` shows for
non-string values: `None`/`True`/`False`, bare numbers, quoted strings,
bracketed lists and dicts). -/
def pyRepr : Json → String
  | .null => "None"
  | .bool true => "True"
  | .bool false => "False"
  | .num n => toString n
  | .str s => "\x27" ++ s ++ "\x27"
  | .arr xs => "[" ++ pyReprElems xs ++ "]"
  | .obj fs => "\x7b" ++ pyReprFields fs ++ "\x7d"

/-- Comma-separated `repr` of list elements. -/
def pyReprElems : List Json → String
  | [] => ""
  | [x] => pyRepr x
  | x :: y :: rest => pyRepr x ++ ", " ++ pyReprElems (y :: rest)

/-- Comma-separated `repr` of dict entries. -/
def pyReprFields : List (String × Json) → String
  | [] => ""
  | [(k, v)] => "\x27" ++ k ++ "\x27: " ++ pyRepr v
  | (k, v) :: f :: rest =>
    "\x27" ++ k ++ "\x27: " ++ pyRepr v ++ ", " ++ pyReprFields (f :: rest)

end

/-- Python `str(x)`: a string is itself; anything else is its `repr`. -/
def pyStr : Json → String
  | .str s => s
  | j => pyRepr j

/-- ASCII lowercase of one character. -/
def pyLowerChar (c : Char) : Char :=
  if 'A' ≤ c && c ≤ 'Z' then Char.ofNat (c.toNat + 32) else c

/-- Python `s.lower()` (ASCII case folding; every character relevant to the
handler's single lowercase comparison is ASCII). -/
def pyLower (s : String) : String := String.mk (s.toList.map pyLowerChar)

/-- The pattern occurs as a contiguous run somewhere in the character list. -/
def occursIn (pat : List Char) : List Char → Bool
  | [] => pat.isEmpty
  | b :: bs => List.isPrefixOf pat (b :: bs) || occursIn pat bs

/-- Python `pat in s` substring test. -/
def containsSub (s pat : String) : Bool := occursIn pat.toList s.toList

/-- Whitespace characters removed by Python's default `str.strip()`
(the ASCII ones; no prompt or kb relevant character is non-ASCII blank). -/
def isPySpace (c : Char) : Bool :=
  c == ' ' || c == '\t' || c == '\n' || c == '\x0b' || c == '\x0c' || c == '\r'

/-- Python `s.strip()`: drop leading and trailing whitespace. -/
def pyStrip (s : String) : String :=
  String.mk (((s.toList.dropWhile isPySpace).reverse.dropWhile isPySpace).reverse)

/-- The handler's balance test: `"insufficient balance" in str(msg).lower()`. -/
def hasInsufficientBalance (msg : String) : Bool :=
  containsSub (pyLower msg) "insufficient balance"

/-- A chat message (`class Msg(BaseModel)`): a role and a content string. -/
structure Msg where
  role : String
  content : String
  deriving DecidableEq, Repr

/-- The request body (`class ChatReq(BaseModel)`): a possibly empty message
list and an optional knowledge-base blob (`kb: Optional[str] = None`). -/
structure ChatReq where
  messages : List Msg := []
  kb : Option String := none
  deriving DecidableEq, Repr

/-- The outbound payload posted to the DeepSeek API: a model identifier, a
temperature, and a message list. -/
structure Payload where
  model : String
  temperature : Rat
  messages : List Msg
  deriving DecidableEq, Repr

/-- An upstream HTTP response after `r.json()` succeeded: the status code
and the parsed body. -/
structure UpstreamResp where
  status : Nat
  body : Json

/-- Result of the single `httpx` POST as seen from inside the handler's
`try` block: either a status with a parsed JSON body, or the text `str(e)`
of an exception (connection failure, timeout, or a body that `r.json()`
cannot parse — all raised inside the `try`). -/
inductive UpstreamResult where
  | success (r : UpstreamResp)
  | transportError (e : String)

/-- Observable outcome of one `/chat` request: a 200 reply whose body is
`{"answer": answer}`, an explicit `HTTPException(status, detail)`, or an
uncaught Python exception escaping the handler. -/
inductive ChatOutcome where
  | ok (answer : Json)
  | httpError (status : Nat) (detail : String)
  | crash (e : PyExn)

/-- HTTP status the caller sees for an outcome: FastAPI renders `ok` as
200, an `HTTPException` with its own status, and an uncaught exception as
a plain 500 response. -/
def httpStatus : ChatOutcome → Nat
  | .ok _ => 200
  | .httpError s _ => s
  | .crash _ => 500

/-- The persona/rules system prompt (`system_prompt = """...""".strip()`). -/
def system_prompt : String :=
  pyStrip ("\nYou are BenBot, the personal website assistant for Zhefan (Ben) Guo.\n\nHard rules:\n- Use ONLY facts that appear in the Knowledge Base.\n- If the Knowledge Base does not contain the answer, say you don't have that information.\n- Do NOT invent names, labs, achievements, dates, or links.\n- If not in KB: say you don't have that information, and optionally suggest checking the resume.\n- Do NOT use Markdown links. If sharing a link, output the raw URL only.\n- Do NOT use any Markdown formatting (no **bold**, no backticks, no markdown bullets).\n- When sharing any link, output the raw URL only (no surrounding punctuation like ** or parentheses).\n\nStyle:\n- Sound friendly and human, not like a template.\n- Vary phrasing (avoid repeating the same sentence patterns).\n- Prefer short paragraphs and bullet points when helpful.\n- You may add light conversational phrases as long as you do NOT add new facts.\n- Make sure you act like a vivid chatAgent\n- You can also include some Emojis, but not too often.\n- If the user asks \"who are you\" or \"who is Ben\", give a 2-4 sentence intro, then offer what they can ask next.\n\nLanguage: English.\n")

/-- The style-example system prompt (`style_examples = """...""".strip()`). -/
def style_examples : String :=
  pyStrip ("\nExamples (style only):\nUser: what's my email?\nAssistant: Sure — Ben's email is zhefan.guo@uconn.edu.\n\nUser: tell me who you are\nAssistant: I'm BenBot — a small assistant on Ben's website. I can help with Ben's background, projects, and links (based only on what's listed on the site).\n\nUser: tell me who is Ben\nAssistant: Ben (Zhefan Guo) is a Computer Science major with a Mathematics minor at UConn, graduating in 2026. Want his projects or links?\n")

/-- Soft-fail answer returned when the API key is missing. -/
def misconfiguredAnswer : String :=
  "Server misconfigured: DEEPSEEK_API_KEY is missing on Render env vars."

/-- Fixed unavailability answer for the insufficient-balance case. -/
def unavailableAnswer : String :=
  "BenBot is temporarily unavailable (API balance is not set up yet). Please check back later or use the contact email: zhefan.guo@uconn.edu."

/-- Fallback answer when the successful upstream body has no usable content. -/
def noResponseAnswer : String := "Sorry — no response."

/-- The guard `if not api_key`: `os.getenv` returns `None` when the
variable is unset, and `not` also treats an empty string as missing. -/
def apiKeyMissing : Option String → Bool
  | none => true
  | some s => s.isEmpty

/-- The loop `for m in reversed(req.messages): if m.role == "user": ...`,
after the list has been reversed: first match wins, default `""`. -/
def lastUserAux : List Msg → String
  | [] => ""
  | m :: rest => if m.role == "user" then m.content else lastUserAux rest

/-- `last_user`: content of the most recent message with role `"user"`,
or `""` when there is none. -/
def lastUser (messages : List Msg) : String := lastUserAux messages.reverse

/-- `kb = (req.kb or "").strip()`: `None` and `""` are both falsy, so the
value stripped is the given string when present and `""` otherwise. -/
def normKb (kb : Option String) : String := pyStrip (kb.getD "")

/-- The outbound payload the handler builds: fixed model `"deepseek-chat"`,
fixed temperature `0.5`, and the four-message list
`[system: persona, system: style, system: "Knowledge Base:\n" + kb,
user: last_user]`. -/
def sentPayload (req : ChatReq) : Payload :=
  ⟨"deepseek-chat", (0.5 : Rat),
    [⟨"system", system_prompt⟩,
     ⟨"system", style_examples⟩,
     ⟨"system", "Knowledge Base:\n" ++ normKb req.kb⟩,
     ⟨"user", lastUser req.messages⟩]⟩

/-- The error-branch extraction
`msg = (data.get("error") or {}).get("message") or data.get("message") or str(data)`,
with the exceptions Python raises when `data` or a truthy `data["error"]`
is not a dict. -/
def errorMsg (data : Json) : Except PyExn Json := do
  let e ← dictGet data "error"
  let m1 ← dictGet (pyOr e (Json.obj [])) "message"
  let m2 ← dictGet data "message"
  pure (pyOr m1 (pyOr m2 (Json.str (pyStr data))))

/-- The success-branch extraction
`(((data.get("choices") or [{}])[0].get("message") or {}).get("content")) or "Sorry — no response."`,
with the exceptions Python raises on non-dict/non-sequence intermediates. -/
def extractAnswer (data : Json) : Except PyExn Json := do
  let cs ← dictGet data "choices"
  let c0 ← pyIndex0 (pyOr cs (Json.arr [Json.obj []]))
  let m ← dictGet c0 "message"
  let content ← dictGet (pyOr m (Json.obj [])) "content"
  pure (pyOr content (Json.str noResponseAnswer))

/-- The `/chat` handler, as a function of the configured API key, the
parsed request, and the upstream oracle (the single `httpx` POST). -/
def chat (api_key : Option String) (req : ChatReq)
    (upstream : Payload → UpstreamResult) : ChatOutcome :=
  if apiKeyMissing api_key then
    .ok (.str misconfiguredAnswer)
  else
    match upstream (sentPayload req) with
    | .transportError e => .httpError 500 e
    | .success r =>
      if 400 ≤ r.status then
        match errorMsg r.body with
        | .error ex => .crash ex
        | .ok msg =>
          if hasInsufficientBalance (pyStr msg) then
            .ok (.str unavailableAnswer)
          else
            .ok (.str ("DeepSeek API error: " ++ pyStr msg))
      else
        match extractAnswer r.body with
        | .error ex => .crash ex
        | .ok answer => .ok answer

/-- The `/health` handler: status 200 with body `{"ok": true}`. -/
def health : Nat × Json := (200, Json.obj [("ok", Json.bool true)])

/-- The configured CORS allow-list (`ALLOWED_ORIGINS`). -/
def ALLOWED_ORIGINS : List String :=
  ["https://ben-gzf.github.io", "http://localhost:3000"]

/-- The keyword arguments passed to `CORSMiddleware`. -/
structure CORSConfig where
  allow_origins : List String
  allow_credentials : Bool
  allow_methods : List String
  allow_headers : List String
  deriving DecidableEq, Repr

/-- The middleware configuration installed by `app.add_middleware(...)`. -/
def appCors : CORSConfig :=
  ⟨ALLOWED_ORIGINS, false, ["POST", "GET", "OPTIONS"], ["*"]⟩

/-- Modelled from the spec: the CORS middleware itself is library code not
in this repository; per the spec, a request origin receives permissive
CORS headers exactly when it matches an allow-list entry (a literal `"*"`
entry would act as a wildcard matching every origin). -/
def corsPermitsOrigin (cfg : CORSConfig) (origin : String) : Bool :=
  cfg.allow_origins.contains "*" || cfg.allow_origins.contains origin

/-- Spec-side kb normalization, following the spec's words: trim
surrounding whitespace; treat absence as the empty string. -/
def specKb : Option String → String
  | none => ""
  | some s => pyStrip s

/-- Spec-side payload, following the spec's words: a fixed model
identifier, a fixed temperature, and the four messages
`[system: persona+rules, system: style examples,
system: "Knowledge Base:\n" + kb, user: last_user]` in that order. -/
def chatSpecPayload (req : ChatReq) : Payload :=
  ⟨"deepseek-chat", (0.5 : Rat),
    [⟨"system", system_prompt⟩,
     ⟨"system", style_examples⟩,
     ⟨"system", "Knowledge Base:\n" ++ specKb req.kb⟩,
     ⟨"user", lastUser req.messages⟩]⟩

/-- Spec-side first link of the error-message chain: the body's
`error.message` value when the body is an object whose `error` field is an
object carrying `message`; `null` (skipped) otherwise. -/
def errorFieldMessage : Json → Json
  | .obj fs =>
    match lookupField fs "error" with
    | some (.obj efs) => (lookupField efs "message").getD .null
    | _ => .null
  | _ => .null

/-- Spec-side second link of the chain: the body's top-level `message`
value, `null` (skipped) when absent. -/
def topMessage : Json → Json
  | .obj fs => (lookupField fs "message").getD .null
  | _ => .null

/-- Spec-side extracted error message: `error.message`, then the top-level
`message`, then the stringified body; a link is skipped when its value is
falsy. -/
def specErrorMessage (body : Json) : Json :=
  pyOr (errorFieldMessage body)
    (pyOr (topMessage body) (.str (pyStr body)))

/-- Spec-side answer text for an upstream error response: the fixed
unavailability message when the extracted message contains the
case-insensitive substring `"insufficient balance"`, otherwise
`"DeepSeek API error: "` followed by the extracted message. -/
def specErrorAnswer (body : Json) : String :=
  if hasInsufficientBalance (pyStr (specErrorMessage body)) then
    unavailableAnswer
  else
    "DeepSeek API error: " ++ pyStr (specErrorMessage body)

/-- Bodies on which the error-branch extraction runs without raising: a
JSON object whose `error` field, when present and truthy, is itself an
object. -/
def errShapeOK : Json → Bool
  | .obj fs =>
    match lookupField fs "error" with
    | none => true
    | some v => !truthy v || (match v with | .obj _ => true | _ => false)
  | _ => false

/-- Spec-side first choice's message content: `choices[0].message.content`
when each step is structurally present, `none` otherwise. -/
def firstChoiceContent : Json → Option Json
  | .obj fs =>
    match lookupField fs "choices" with
    | some (.arr (Json.obj mfs :: _)) =>
      (match lookupField mfs "message" with
       | some (.obj cfs) => lookupField cfs "content"
       | _ => none)
    | _ => none
  | _ => none

/-- Spec-side answer for a successful upstream response: the first
choice's message content when present and truthy, else the fixed fallback
string. -/
def specSuccessAnswer (body : Json) : Json :=
  match firstChoiceContent body with
  | some c => if truthy c then c else .str noResponseAnswer
  | none => .str noResponseAnswer

/-- Bodies on which the success-branch extraction runs without raising: a
JSON object whose truthy `choices` value is an array headed by an object
whose truthy `message` value is again an object. -/
def successShapeOK : Json → Bool
  | .obj fs =>
    match lookupField fs "choices" with
    | none => true
    | some v =>
      !truthy v ||
        (match v with
         | .arr (Json.obj mfs :: _) =>
           (match lookupField mfs "message" with
            | none => true
            | some m =>
              !truthy m || (match m with | .obj _ => true | _ => false))
         | _ => false)
  | _ => false

/-! Helper lemmas. -/

theorem except_bind_ok {α β ε : Type} (a : α) (f : α → Except ε β) :
    ((Except.ok a : Except ε α) >>= f) = f a := rfl

theorem except_bind_error {α β ε : Type} (e : ε) (f : α → Except ε β) :
    ((Except.error e : Except ε α) >>= f) = .error e := rfl

theorem except_pure_eq_ok {α ε : Type} (a : α) :
    (pure a : Except ε α) = .ok a := rfl

theorem errorMsg_eq_spec (body : Json) (h : errShapeOK body = true) :
    errorMsg body = .ok (specErrorMessage body) := by
  cases body with
  | null => simp [errShapeOK] at h
  | bool b => simp [errShapeOK] at h
  | num n => simp [errShapeOK] at h
  | str s => simp [errShapeOK] at h
  | arr xs => simp [errShapeOK] at h
  | obj fs =>
    simp only [errShapeOK] at h
    cases hE : lookupField fs "error" with
    | none =>
      simp [errorMsg, dictGet, hE, pyOr, truthy, specErrorMessage,
        errorFieldMessage, topMessage, lookupField, except_bind_ok,
        except_pure_eq_ok]
    | some v =>
      rw [hE] at h
      cases v with
      | obj efs =>
        cases efs <;>
          simp [errorMsg, dictGet, hE, pyOr, truthy, specErrorMessage,
            errorFieldMessage, topMessage, lookupField,
            except_bind_ok, except_pure_eq_ok]
      | null =>
        simp [errorMsg, dictGet, hE, pyOr, truthy, specErrorMessage,
          errorFieldMessage, topMessage, lookupField, except_bind_ok,
          except_pure_eq_ok]
      | bool b =>
        simp_all [errorMsg, dictGet, hE, pyOr, truthy, specErrorMessage,
          errorFieldMessage, topMessage, lookupField, except_bind_ok,
          except_pure_eq_ok]
      | num n =>
        simp_all [errorMsg, dictGet, hE, pyOr, truthy, specErrorMessage,
          errorFieldMessage, topMessage, lookupField, except_bind_ok,
          except_pure_eq_ok]
      | str s =>
        simp_all [errorMsg, dictGet, hE, pyOr, truthy, specErrorMessage,
          errorFieldMessage, topMessage, lookupField, except_bind_ok,
          except_pure_eq_ok]
      | arr xs =>
        simp_all [errorMsg, dictGet, hE, pyOr, truthy, specErrorMessage,
          errorFieldMessage, topMessage, lookupField, except_bind_ok,
          except_pure_eq_ok]

theorem lastUserAux_of_no_user :
    ∀ l : List Msg, (∀ m ∈ l, m.role ≠ "user") → lastUserAux l = "" := by
  intro l h
  induction l with
  | nil => rfl
  | cons m rest ih =>
    have hm : m.role ≠ "user" := h m (by simp)
    simp only [lastUserAux, beq_iff_eq, if_neg hm]
    exact ih fun m' hm' => h m' (List.mem_cons_of_mem _ hm')

theorem lastUserAux_append_of_no_user :
    ∀ l₁ l₂ : List Msg, (∀ m ∈ l₁, m.role ≠ "user") →
      lastUserAux (l₁ ++ l₂) = lastUserAux l₂ := by
  intro l₁ l₂ h
  induction l₁ with
  | nil => rfl
  | cons m rest ih =>
    have hm : m.role ≠ "user" := h m (by simp)
    simp only [List.cons_append, lastUserAux, beq_iff_eq, if_neg hm]
    exact ih fun m' hm' => h m' (List.mem_cons_of_mem _ hm')

set_option maxHeartbeats 1000000 in
theorem extractAnswer_eq_spec (body : Json) (h : successShapeOK body = true) :
    extractAnswer body = .ok (specSuccessAnswer body) := by
  cases body with
  | null => simp [successShapeOK] at h
  | bool b => simp [successShapeOK] at h
  | num n => simp [successShapeOK] at h
  | str s => simp [successShapeOK] at h
  | arr xs => simp [successShapeOK] at h
  | obj fs =>
    simp only [successShapeOK] at h
    cases hC : lookupField fs "choices" with
    | none =>
      simp [extractAnswer, dictGet, hC, pyOr, truthy, pyIndex0,
        specSuccessAnswer, firstChoiceContent, lookupField,
        except_bind_ok, except_pure_eq_ok]
    | some v =>
      rw [hC] at h
      cases v with
      | arr xs =>
        cases xs with
        | nil =>
          simp [extractAnswer, dictGet, hC, pyOr, truthy, pyIndex0,
            specSuccessAnswer, firstChoiceContent, lookupField,
            except_bind_ok, except_pure_eq_ok]
        | cons c0 rest =>
          cases c0 with
          | obj mfs =>
            cases hM : lookupField mfs "message" with
            | none =>
              simp [extractAnswer, dictGet, hC, hM, pyOr, truthy, pyIndex0,
                specSuccessAnswer, firstChoiceContent, lookupField,
                except_bind_ok, except_pure_eq_ok]
            | some m =>
              simp only [hM] at h
              cases m with
              | obj cfs =>
                cases cfs with
                | nil =>
                  simp [extractAnswer, dictGet, hC, hM, pyOr, truthy,
                    pyIndex0, specSuccessAnswer, firstChoiceContent,
                    lookupField, except_bind_ok, except_pure_eq_ok]
                | cons p ps =>
                  cases hCt : lookupField (p :: ps) "content" with
                  | none =>
                    simp [extractAnswer, dictGet, hC, hM, hCt, pyOr, truthy,
                      pyIndex0, specSuccessAnswer, firstChoiceContent,
                      except_bind_ok, except_pure_eq_ok]
                  | some c =>
                    simp [extractAnswer, dictGet, hC, hM, hCt, pyOr, truthy,
                      pyIndex0, specSuccessAnswer, firstChoiceContent,
                      except_bind_ok, except_pure_eq_ok]
              | null =>
                simp [extractAnswer, dictGet, hC, hM, pyOr, truthy, pyIndex0,
                  specSuccessAnswer, firstChoiceContent, lookupField,
                  except_bind_ok, except_pure_eq_ok]
              | bool b =>
                simp_all [extractAnswer, dictGet, pyOr, truthy, pyIndex0,
                  specSuccessAnswer, firstChoiceContent, lookupField,
                  except_bind_ok, except_pure_eq_ok]
              | num n =>
                simp_all [extractAnswer, dictGet, pyOr, truthy, pyIndex0,
                  specSuccessAnswer, firstChoiceContent, lookupField,
                  except_bind_ok, except_pure_eq_ok]
              | str s =>
                simp_all [extractAnswer, dictGet, pyOr, truthy, pyIndex0,
                  specSuccessAnswer, firstChoiceContent, lookupField,
                  except_bind_ok, except_pure_eq_ok]
              | arr ys =>
                simp_all [extractAnswer, dictGet, pyOr, truthy, pyIndex0,
                  specSuccessAnswer, firstChoiceContent, lookupField,
                  except_bind_ok, except_pure_eq_ok]
          | null => simp [truthy] at h
          | bool b => simp [truthy] at h
          | num n => simp [truthy] at h
          | str s => simp [truthy] at h
          | arr ys => simp [truthy] at h
      | null =>
        simp [extractAnswer, dictGet, hC, pyOr, truthy, pyIndex0,
          specSuccessAnswer, firstChoiceContent, lookupField,
          except_bind_ok, except_pure_eq_ok]
      | bool b =>
        simp_all [extractAnswer, dictGet, pyOr, truthy, pyIndex0,
          specSuccessAnswer, firstChoiceContent, lookupField,
          except_bind_ok, except_pure_eq_ok]
      | num n =>
        simp_all [extractAnswer, dictGet, pyOr, truthy, pyIndex0,
          specSuccessAnswer, firstChoiceContent, lookupField,
          except_bind_ok, except_pure_eq_ok]
      | str s =>
        simp_all [extractAnswer, dictGet, pyOr, truthy, pyIndex0,
          specSuccessAnswer, firstChoiceContent, lookupField,
          except_bind_ok, except_pure_eq_ok]
      | obj ofs =>
        simp_all [extractAnswer, dictGet, pyOr, truthy, pyIndex0,
          specSuccessAnswer, firstChoiceContent, lookupField,
          except_bind_ok, except_pure_eq_ok]

/-! Claim theorems. -/

/-- C1: for every request, `last_user` is the content of the last entry of
`messages` (scanning from most recent to oldest) whose role is `"user"`;
when no such entry exists — in particular for an empty list — it is the
empty string, and entries occurring after that entry with other roles do
not affect the result. -/
theorem C1_last_user :
    (∀ ms : List Msg, (∀ m ∈ ms, m.role ≠ "user") → lastUser ms = "") ∧
    (∀ (pre : List Msg) (m : Msg) (post : List Msg),
      m.role = "user" → (∀ m' ∈ post, m'.role ≠ "user") →
      lastUser (pre ++ m :: post) = m.content) := by
  constructor
  · intro ms h
    exact lastUserAux_of_no_user ms.reverse fun m hm =>
      h m (List.mem_reverse.mp hm)
  · intro pre m post hm hpost
    show lastUserAux (pre ++ m :: post).reverse = m.content
    have hrev : (pre ++ m :: post).reverse
        = post.reverse ++ m :: pre.reverse := by
      simp [List.reverse_append]
    rw [hrev,
      lastUserAux_append_of_no_user post.reverse (m :: pre.reverse)
        (fun m' hm' => hpost m' (List.mem_reverse.mp hm'))]
    simp [lastUserAux, hm]

/-- C1 witness: on a concrete conversation the most recent user entry
wins, later assistant/system entries are ignored. -/
theorem C1_last_user_witness :
    lastUser [⟨"user", "old"⟩, ⟨"assistant", "a"⟩, ⟨"user", "hi"⟩,
      ⟨"assistant", "b"⟩, ⟨"system", "s"⟩] = "hi" :=
  C1_last_user.2 [⟨"user", "old"⟩, ⟨"assistant", "a"⟩] ⟨"user", "hi"⟩
    [⟨"assistant", "b"⟩, ⟨"system", "s"⟩] rfl (by decide)

/-- C2: when the API key is present, the outbound upstream payload is
exactly the fixed model, fixed temperature and four fixed-order messages
described by the spec (`chatSpecPayload`): the payload the handler builds
equals the spec payload, and the handler's outcome depends on the oracle
only through its value at that payload. -/
theorem C2_outbound_payload :
    (∀ req : ChatReq, sentPayload req = chatSpecPayload req) ∧
    (∀ (key : Option String) (req : ChatReq)
      (u1 u2 : Payload → UpstreamResult),
      apiKeyMissing key = false →
      u1 (sentPayload req) = u2 (sentPayload req) →
      chat key req u1 = chat key req u2) := by
  constructor
  · intro req
    have hkb : normKb req.kb = specKb req.kb := by
      cases req.kb with
      | none => decide
      | some s => rfl
    simp [sentPayload, chatSpecPayload, hkb]
  · intro key req u1 u2 hk hu
    simp only [chat, hk, hu, Bool.false_eq_true, if_false]

/-- C2 witness: on a concrete request the built payload equals the spec
payload, and two oracles agreeing at that payload give equal outcomes. -/
theorem C2_outbound_payload_witness :
    sentPayload ⟨[⟨"user", "hi"⟩], some " kb "⟩
      = chatSpecPayload ⟨[⟨"user", "hi"⟩], some " kb "⟩ ∧
    chat (some "k") ⟨[⟨"user", "hi"⟩], some " kb "⟩
        (fun _ => .transportError "a")
      = chat (some "k") ⟨[⟨"user", "hi"⟩], some " kb "⟩
          (fun p => if p.model = "deepseek-chat"
            then .transportError "a" else .transportError "b") :=
  ⟨C2_outbound_payload.1 _,
    C2_outbound_payload.2 (some "k") _ _ _ (by decide) (by simp [sentPayload])⟩

/-- C3 counterexample: an upstream response with status 402 whose body is
the JSON object `{"error": "bad"}` does not produce an HTTP 200 answer:
the extraction chain calls `.get` on the string `"bad"`, raising
`AttributeError`, and the caller sees HTTP 500. -/
theorem C3_counterexample :
    chat (some "k") ⟨[], none⟩
        (fun _ => .success ⟨402, Json.obj [("error", Json.str "bad")]⟩)
      = .crash .attributeError ∧
    httpStatus (chat (some "k") ⟨[], none⟩
        (fun _ => .success ⟨402, Json.obj [("error", Json.str "bad")]⟩))
      = 500 :=
  ⟨rfl, rfl⟩

/-- C3 (amended): for every upstream response with status ≥ 400 whose JSON
body is an object whose `error` field, when present and truthy, is itself
an object, `/chat` responds HTTP 200 with the answer built from the
ordered chain `error.message`, then top-level `message`, then the
stringified body: the fixed unavailability message when that message
contains the case-insensitive substring "insufficient balance", otherwise
"DeepSeek API error: " followed by it.  (On other ≥ 400 bodies the
handler raises instead.) -/
theorem C3_upstream_error :
    ∀ (key : Option String) (req : ChatReq) (u : Payload → UpstreamResult)
      (status : Nat) (body : Json),
      apiKeyMissing key = false →
      u (sentPayload req) = .success ⟨status, body⟩ →
      400 ≤ status →
      errShapeOK body = true →
      chat key req u = .ok (.str (specErrorAnswer body)) := by
  intro key req u status body hk hu hs hb
  simp only [chat, hk, Bool.false_eq_true, if_false, hu]
  rw [if_pos hs, errorMsg_eq_spec body hb]
  by_cases hib : hasInsufficientBalance (pyStr (specErrorMessage body)) = true
  · simp [specErrorAnswer, hib]
  · simp only [Bool.not_eq_true] at hib
    simp [specErrorAnswer, hib]

/-- C3 witness: the spec's own example — status 402 with body
`{"error": {"message": "Insufficient Balance"}}` yields the fixed
unavailability answer. -/
theorem C3_upstream_error_witness :
    chat (some "k") ⟨[], none⟩
        (fun _ => .success ⟨402,
          Json.obj [("error",
            Json.obj [("message", Json.str "Insufficient Balance")])]⟩)
      = .ok (.str unavailableAnswer) := by
  have h := C3_upstream_error (some "k") ⟨[], none⟩
    (fun _ => .success ⟨402,
      Json.obj [("error",
        Json.obj [("message", Json.str "Insufficient Balance")])]⟩)
    402
    (Json.obj [("error",
      Json.obj [("message", Json.str "Insufficient Balance")])])
    rfl rfl (by decide) (by decide)
  rw [h]
  rfl

/-- C4 counterexample: when `choices[0].message.content` is present but
equal to the empty string, `/chat` answers the fixed fallback string, not
the (empty) content the claim promises. -/
theorem C4_counterexample :
    chat (some "k") ⟨[], none⟩
        (fun _ => .success ⟨200,
          Json.obj [("choices", Json.arr [Json.obj [("message",
            Json.obj [("content", Json.str "")])]])]⟩)
      = .ok (.str "Sorry — no response.") ∧
    ¬ chat (some "k") ⟨[], none⟩
        (fun _ => .success ⟨200,
          Json.obj [("choices", Json.arr [Json.obj [("message",
            Json.obj [("content", Json.str "")])]])]⟩)
      = .ok (.str "") := by
  refine ⟨rfl, fun hcontra => ?_⟩
  have h1 : ChatOutcome.ok (Json.str "Sorry — no response.")
      = ChatOutcome.ok (Json.str "") := Eq.trans (Eq.symm (by rfl)) hcontra
  injection h1 with h2
  injection h2 with h3
  exact absurd h3 (by decide)

/-- C4 (amended): for every upstream response with status < 400 whose JSON
body is an object of well-formed shape (`successShapeOK`), `/chat`
responds HTTP 200 with the first choice's message content when that
content is present and truthy, and with the fixed fallback string
"Sorry — no response." when it is structurally absent or falsy (the code
treats falsy content like absent content; on ill-shaped bodies the
handler raises instead). -/
theorem C4_success_answer :
    ∀ (key : Option String) (req : ChatReq) (u : Payload → UpstreamResult)
      (status : Nat) (body : Json),
      apiKeyMissing key = false →
      u (sentPayload req) = .success ⟨status, body⟩ →
      status < 400 →
      successShapeOK body = true →
      chat key req u = .ok (specSuccessAnswer body) := by
  intro key req u status body hk hu hs hb
  have hlt : ¬ 400 ≤ status := by omega
  simp only [chat, hk, Bool.false_eq_true, if_false, hu]
  rw [if_neg hlt, extractAnswer_eq_spec body hb]

/-- C4 witness: the spec's own example — status 200 with
`choices[0].message.content == "Hello"` yields answer `"Hello"`. -/
theorem C4_success_answer_witness :
    chat (some "k") ⟨[], none⟩
        (fun _ => .success ⟨200,
          Json.obj [("choices", Json.arr [Json.obj [("message",
            Json.obj [("content", Json.str "Hello")])]])]⟩)
      = .ok (.str "Hello") := by
  have h := C4_success_answer (some "k") ⟨[], none⟩
    (fun _ => .success ⟨200,
      Json.obj [("choices", Json.arr [Json.obj [("message",
        Json.obj [("content", Json.str "Hello")])]])]⟩)
    200
    (Json.obj [("choices", Json.arr [Json.obj [("message",
      Json.obj [("content", Json.str "Hello")])]])])
    rfl rfl (by decide) (by decide)
  rw [h]
  rfl

/-- C5: when the API key is absent from the process configuration, `/chat`
answers with the misconfiguration message — HTTP 200, answer containing
"Server misconfigured" — for every request and every upstream oracle, so
the upstream API is never consulted. -/
theorem C5_missing_key :
    (∀ (req : ChatReq) (u : Payload → UpstreamResult),
      chat none req u = .ok (.str misconfiguredAnswer) ∧
      httpStatus (chat none req u) = 200) ∧
    containsSub misconfiguredAnswer "Server misconfigured" = true := by
  exact ⟨fun req u => ⟨rfl, rfl⟩, by decide⟩

/-- C6 counterexample: a status-200 upstream response whose body is the
JSON object `{"choices": "x"}` makes the handler raise `AttributeError`,
so the caller sees a non-200 status (HTTP 500) on a path that is not a
transport failure, refuting "the transport path is the only one on which
/chat produces a non-200 status". -/
theorem C6_counterexample :
    chat (some "k") ⟨[], none⟩
        (fun _ => .success ⟨200, Json.obj [("choices", Json.str "x")]⟩)
      = .crash .attributeError ∧
    httpStatus (chat (some "k") ⟨[], none⟩
        (fun _ => .success ⟨200, Json.obj [("choices", Json.str "x")]⟩))
      = 500 :=
  ⟨rfl, rfl⟩

/-- C6 (amended): every transport-level failure of the upstream call
(which includes a response body that `r.json()` cannot parse) yields an
`HTTPException` with status 500 whose detail is the exception's textual
description, and this transport path is the only one producing such an
`HTTPException`; however, handler crashes on unexpected upstream body
shapes are a further non-200 path. -/
theorem C6_transport :
    (∀ (key : Option String) (req : ChatReq)
      (u : Payload → UpstreamResult) (e : String),
      apiKeyMissing key = false →
      u (sentPayload req) = .transportError e →
      chat key req u = .httpError 500 e) ∧
    (∀ (key : Option String) (req : ChatReq)
      (u : Payload → UpstreamResult) (s : Nat) (d : String),
      chat key req u = .httpError s d →
      s = 500 ∧ u (sentPayload req) = .transportError d) := by
  constructor
  · intro key req u e hk hu
    simp [chat, hk, hu]
  · intro key req u s d h
    by_cases hk : apiKeyMissing key = true
    · simp [chat, hk] at h
    · have hk' : apiKeyMissing key = false := by simpa using hk
      simp only [chat, hk', Bool.false_eq_true, if_false] at h
      cases hres : u (sentPayload req) with
      | transportError e =>
        simp only [hres] at h
        injection h with h1 h2
        exact ⟨h1.symm, by rw [h2]⟩
      | success r =>
        simp only [hres] at h
        by_cases hs : 400 ≤ r.status
        · rw [if_pos hs] at h
          cases he : errorMsg r.body with
          | error ex => simp [he] at h
          | ok msg =>
            simp only [he] at h
            split at h <;> simp at h
        · rw [if_neg hs] at h
          cases he : extractAnswer r.body with
          | error ex => simp [he] at h
          | ok a => simp [he] at h

/-- C6 witness: a concrete transport failure surfaces as HTTP 500 with the
exception text as detail. -/
theorem C6_transport_witness :
    chat (some "k") ⟨[], none⟩ (fun _ => .transportError "boom")
      = .httpError 500 "boom" :=
  C6_transport.1 (some "k") ⟨[], none⟩ (fun _ => .transportError "boom")
    "boom" rfl rfl

/-- C7: `GET /health` always responds with HTTP status 200 and body
exactly `{"ok": true}`; the operation takes no inputs. -/
theorem C7_health :
    health = (200, Json.obj [("ok", Json.bool true)]) := rfl

/-- C8: the cross-origin configuration permits exactly the origins in the
fixed allow-list (which contains no wildcard), never honors credentials,
allows exactly the methods POST, GET and OPTIONS, and accepts all
headers; the middleware behaviour itself is modelled from the spec. -/
theorem C8_cors :
    (∀ origin : String,
      corsPermitsOrigin appCors origin = true ↔ origin ∈ ALLOWED_ORIGINS) ∧
    appCors.allow_credentials = false ∧
    appCors.allow_methods = ["POST", "GET", "OPTIONS"] ∧
    appCors.allow_headers = ["*"] ∧
    ("*" ∈ ALLOWED_ORIGINS → False) := by
  refine ⟨?_, rfl, rfl, rfl, by decide⟩
  intro origin
  have hstar : ALLOWED_ORIGINS.contains "*" = false := rfl
  simp [corsPermitsOrigin, appCors, hstar, List.contains_iff_exists_mem_beq,
    ALLOWED_ORIGINS]

/-- C8 witness: the GitHub Pages origin from the allow-list is permitted. -/
theorem C8_cors_witness :
    corsPermitsOrigin appCors "https://ben-gzf.github.io" = true :=
  (C8_cors.1 "https://ben-gzf.github.io").mpr (by decide)

/-- C9: for every upstream response with status < 400 in which
`choices[0].message.content` is present but falsy (empty string, null,
false, zero, or an empty container), `/chat` answers the fixed fallback
string "Sorry — no response." rather than that content: the extraction
treats falsy content the same as structurally absent content. -/
theorem C9_falsy_content :
    ∀ (key : Option String) (req : ChatReq) (u : Payload → UpstreamResult)
      (status : Nat) (fs mfs cfs : List (String × Json))
      (rest : List Json) (c : Json),
      apiKeyMissing key = false →
      u (sentPayload req) = .success ⟨status, Json.obj fs⟩ →
      status < 400 →
      lookupField fs "choices" = some (.arr (Json.obj mfs :: rest)) →
      lookupField mfs "message" = some (.obj cfs) →
      lookupField cfs "content" = some c →
      truthy c = false →
      chat key req u = .ok (.str noResponseAnswer) := by
  intro key req u status fs mfs cfs rest c hk hu hs hC hM hCt hc
  have hshape : successShapeOK (Json.obj fs) = true := by
    simp [successShapeOK, hC, hM]
  have hlt : ¬ 400 ≤ status := by omega
  simp only [chat, hk, Bool.false_eq_true, if_false, hu]
  rw [if_neg hlt, extractAnswer_eq_spec _ hshape]
  simp [specSuccessAnswer, firstChoiceContent, hC, hM, hCt, hc]

/-- C9 witness: a present but null content yields the fallback answer. -/
theorem C9_falsy_content_witness :
    chat (some "k") ⟨[], none⟩
        (fun _ => .success ⟨200,
          Json.obj [("choices", Json.arr [Json.obj [("message",
            Json.obj [("content", Json.null)])]])]⟩)
      = .ok (.str noResponseAnswer) :=
  C9_falsy_content (some "k") ⟨[], none⟩
    (fun _ => .success ⟨200,
      Json.obj [("choices", Json.arr [Json.obj [("message",
        Json.obj [("content", Json.null)])]])]⟩)
    200
    [("choices", Json.arr [Json.obj [("message",
      Json.obj [("content", Json.null)])]])]
    [("message", Json.obj [("content", Json.null)])]
    [("content", Json.null)]
    [] Json.null
    rfl rfl (by decide) rfl rfl rfl rfl

/-- C10: when the API key environment variable is set to the empty string,
`/chat` behaves exactly as in the absent-credential case: HTTP 200 with
the "Server misconfigured" answer, independent of the upstream oracle. -/
theorem C10_empty_key :
    ∀ (req : ChatReq) (u v : Payload → UpstreamResult),
      chat (some "") req u = chat none req v ∧
      chat (some "") req u = .ok (.str misconfiguredAnswer) := by
  exact fun req u v => ⟨rfl, rfl⟩

end BenBot
